import Mathlib

/-!
Shallow embedding of the encoder-rs crate (src/button.rs, src/rotary.rs,
src/encoder.rs, src/time.rs).

Pin reads are modelled as `Except` inputs: a successful read carries the
sampled boolean level, a failed read carries the pin error.  Every `update`
returns the call's result together with the component state after the call,
mirroring the in-place mutation of the Rust methods (mutations performed
before an early `?` return are kept, exactly as in the source).

Instants (the `Instant` trait of src/time.rs) are modelled as natural
numbers counting milliseconds; `duration_since` is truncated subtraction,
matching a monotonic millisecond clock.
-/

-- ---------------------------------------------------------------------
-- src/button.rs
-- ---------------------------------------------------------------------

/-- Rust `ButtonAction` from src/button.rs. -/
inductive ButtonAction where
  | none
  | press
  | held
  | click
  deriving DecidableEq

/-- Rust `button::Error<K>` from src/button.rs. -/
inductive ButtonError (κ : Type) where
  | kPin (e : κ)
  deriving DecidableEq

/-- Rust `update_state` from src/button.rs: shift the new sample into the
2-bit shift register and return the new value. -/
def update_state (state : Nat) (pressed : Bool) : Nat :=
  match pressed with
  | true => (state >>> 1) ||| 0b10
  | false => state >>> 1

/-- Rust `Button<K, INVERTED>` state: the 2-bit sample history and the
`handle_press` acknowledgment flag (the pin itself is external; the
`INVERTED` const parameter is passed to `Button.update`). -/
structure Button where
  state : Nat
  handle_press : Bool
  deriving DecidableEq

/-- Rust `Button::new`. -/
def Button.new : Button := ⟨0, false⟩

/-- Rust `Button::handle_press`: set the acknowledgment flag, but only in
states `0b10` and `0b11`. -/
def Button.handlePress (b : Button) : Button :=
  if b.state = 0b10 ∨ b.state = 0b11 then { b with handle_press := true } else b

/-- Body of Rust `Button::update` after the pin read: update the shift
register and classify the 2-bit state.  The final branch is Rust's
`unreachable!()`, never hit for 2-bit states. -/
def Button.updateCore (b : Button) (pressed : Bool) : ButtonAction × Button :=
  let s := update_state b.state pressed
  if s = 0b01 ∧ b.handle_press then (.none, ⟨s, false⟩)
  else if s = 0b11 ∧ b.handle_press then (.none, ⟨s, b.handle_press⟩)
  else if s = 0b00 then (.none, ⟨s, b.handle_press⟩)
  else if s = 0b01 then (.click, ⟨s, b.handle_press⟩)
  else if s = 0b10 then (.press, ⟨s, b.handle_press⟩)
  else if s = 0b11 then (.held, ⟨s, b.handle_press⟩)
  else (.none, ⟨s, b.handle_press⟩)

/-- Rust `Button::update`: read the key pin (`pressed = is_high ^ INVERTED`),
propagating a read failure with the state untouched, then classify. -/
def Button.update {κ : Type} (inverted : Bool) (b : Button) (is_high : Except κ Bool) :
    Except (ButtonError κ) ButtonAction × Button :=
  match is_high with
  | .error e => (.error (.kPin e), b)
  | .ok h =>
    let pressed := xor h inverted
    let p := b.updateCore pressed
    (.ok p.1, p.2)

-- ---------------------------------------------------------------------
-- src/rotary.rs
-- ---------------------------------------------------------------------

/-- Rust `Direction` from src/rotary.rs. -/
inductive Direction where
  | none
  | cw
  | ccw
  deriving DecidableEq

/-- Rust `Rotation` (a signed step count, `i32` in the source). -/
structure Rotation where
  angle : Int
  deriving DecidableEq

/-- Rust `Direction::to_rotation`: None ↦ 0, Cw ↦ +1, Ccw ↦ -1. -/
def Direction.to_rotation : Direction → Rotation
  | .none => ⟨0⟩
  | .cw => ⟨1⟩
  | .ccw => ⟨-1⟩

/-- Rust `Rotation::direction`: 0 ↦ None, positive ↦ Ccw, negative ↦ Cw. -/
def Rotation.direction (r : Rotation) : Direction :=
  if r.angle = 0 then .none
  else if 0 < r.angle then .ccw
  else .cw

/-- Rust `Rotation::is_zero`. -/
def Rotation.is_zero (r : Rotation) : Bool := decide (r.angle = 0)

/-- Rust `RotaryError<A, B>`. -/
inductive RotaryError (α β : Type) where
  | aPin (e : α)
  | bPin (e : β)
  deriving DecidableEq

/-- Rust `Rotary<A, B, ROTATION_DIVIDER>` state: the 4-bit quadrature window
and the sub-step accumulator (`i8` in Rust, modelled as `Int`; reachable
values stay far inside the `i8` range).  The divider const parameter is
passed explicitly to `Rotary.update`. -/
structure Rotary where
  state : Nat
  switches : Int
  deriving DecidableEq

/-- Rust `Rotary::new`. -/
def Rotary.new : Rotary := ⟨0, 0⟩

/-- The `overflow_switches` closure inside Rust `Rotary::update`: returns
the new accumulator value and the emitted rotation. -/
def overflow_switches (d : Int) (switches : Int) : Int × Rotation :=
  if d ≤ (switches.natAbs : Int) then (0, ⟨Int.sign switches⟩)
  else (switches, ⟨0⟩)

/-- Body of Rust `Rotary::update` after the two pin reads: shift the new
(A, B) pair into the 4-bit window, then classify the window value. -/
def Rotary.updateCore (d : Int) (r : Rotary) (a_low b_low : Bool) : Rotation × Rotary :=
  let state := (r.state >>> 2) |||
    (match a_low, b_low with
      | false, false => 0b0000
      | false, true => 0b0100
      | true, false => 0b1000
      | true, true => 0b1100)
  if state = 0b0001 ∨ state = 0b0111 ∨ state = 0b1110 ∨ state = 0b1000 ∨ state = 0b0110 then
    let p := overflow_switches d (r.switches - 1)
    (p.2, ⟨state, p.1⟩)
  else if state = 0b0010 ∨ state = 0b1011 ∨ state = 0b1101 ∨ state = 0b0100 ∨ state = 0b1001 then
    let p := overflow_switches d (r.switches + 1)
    (p.2, ⟨state, p.1⟩)
  else if state = 0b0000 ∨ state = 0b0011 then
    (⟨Int.sign r.switches⟩, ⟨state, 0⟩)
  else
    (⟨0⟩, ⟨state, r.switches⟩)

/-- Rust `Rotary::update`: read both pins (propagating the first failure
with the state untouched), then run the quadrature step. -/
def Rotary.update {α β : Type} (d : Int) (r : Rotary) (a_low : Except α Bool)
    (b_low : Except β Bool) : Except (RotaryError α β) Rotation × Rotary :=
  match a_low with
  | .error e => (.error (.aPin e), r)
  | .ok al =>
    match b_low with
    | .error e => (.error (.bPin e), r)
    | .ok bl =>
      let p := r.updateCore d al bl
      (.ok p.1, p.2)

/-- Rust constant `SINGLE_ROTATION_MS` from src/rotary.rs. -/
def SINGLE_ROTATION_MS : Nat := 100

/-- Rust constant `LIMITED_ROTATION_MS` from src/rotary.rs. -/
def LIMITED_ROTATION_MS : Nat := 20

/-- Rust `TimeRotary` state: inner rotary, the instant of the last nonzero
step (`None` until the first one), and the acceleration factor (`u16`). -/
structure TimeRotary where
  rotary : Rotary
  last_rot_at : Option Nat
  acceleration : Nat
  deriving DecidableEq

/-- Rust `TimeRotary::new` (via `with_acceleration(_, _, 1)`). -/
def TimeRotary.new : TimeRotary := ⟨Rotary.new, Option.none, 1⟩

/-- Rust `TimeRotary::update`: run the quadrature step; on a nonzero step,
replace `last_rot_at` with `now` and scale by the acceleration profile
(`dt ≤ 20` ms ⇒ full factor, `dt ≥ 100` ms ⇒ unscaled, otherwise the
integer-interpolated multiplier). -/
def TimeRotary.update {α β : Type} (d : Int) (tr : TimeRotary) (a_low : Except α Bool)
    (b_low : Except β Bool) (now : Nat) :
    Except (RotaryError α β) Rotation × TimeRotary :=
  match Rotary.update d tr.rotary a_low b_low with
  | (.error e, r') => (.error e, { tr with rotary := r' })
  | (.ok rot, r') =>
    if rot.angle = 0 then
      (.ok rot, { tr with rotary := r' })
    else
      let base := rot.angle
      let tr' : TimeRotary := ⟨r', some now, tr.acceleration⟩
      match tr.last_rot_at with
      | Option.none => (.ok ⟨base⟩, tr')
      | some last =>
        let dt := now - last
        if dt ≤ LIMITED_ROTATION_MS then
          (.ok ⟨base * (tr.acceleration : Int)⟩, tr')
        else if SINGLE_ROTATION_MS ≤ dt then
          (.ok ⟨base⟩, tr')
        else
          let low_plus_dt := dt - LIMITED_ROTATION_MS
          let size := SINGLE_ROTATION_MS - LIMITED_ROTATION_MS
          let acc := tr.acceleration
          let mult := acc - acc * low_plus_dt / size
          (.ok ⟨base * (mult : Int)⟩, tr')

-- ---------------------------------------------------------------------
-- Decidable equality for Except results (used by concrete evaluations)
-- ---------------------------------------------------------------------

instance {ε γ : Type} [DecidableEq ε] [DecidableEq γ] : DecidableEq (Except ε γ) := fun x y =>
  match x, y with
  | .ok a, .ok b =>
    if h : a = b then .isTrue (by rw [h]) else .isFalse (by intro hc; cases hc; exact h rfl)
  | .error a, .error b =>
    if h : a = b then .isTrue (by rw [h]) else .isFalse (by intro hc; cases hc; exact h rfl)
  | .ok _, .error _ => .isFalse (by intro hc; cases hc)
  | .error _, .ok _ => .isFalse (by intro hc; cases hc)

-- ---------------------------------------------------------------------
-- src/button.rs: TimeButton
-- ---------------------------------------------------------------------

/-- Rust `TimeButtonAction` from src/button.rs (durations in ms). -/
inductive TimeButtonAction where
  | none
  | press
  | held (d : Nat)
  | click (d : Nat)
  deriving DecidableEq

/-- Rust `TimeButton` state: inner button and the instant the current press
began (`T::zero()` initially). -/
structure TimeButton where
  button : Button
  press_at : Nat
  deriving DecidableEq

/-- Rust `TimeButton::new`. -/
def TimeButton.new : TimeButton := ⟨Button.new, 0⟩

/-- Rust `TimeButton::update`: run the inner button, anchor `press_at` on a
`Press`, attach `now - press_at` to `Held` and `Click`. -/
def TimeButton.update {κ : Type} (inverted : Bool) (tb : TimeButton)
    (is_high : Except κ Bool) (now : Nat) :
    Except (ButtonError κ) TimeButtonAction × TimeButton :=
  match Button.update inverted tb.button is_high with
  | (.error e, b') => (.error e, { tb with button := b' })
  | (.ok act, b') =>
    match act with
    | .none => (.ok .none, { tb with button := b' })
    | .press => (.ok .press, ⟨b', now⟩)
    | .held => (.ok (.held (now - tb.press_at)), { tb with button := b' })
    | .click => (.ok (.click (now - tb.press_at)), { tb with button := b' })

-- ---------------------------------------------------------------------
-- src/encoder.rs
-- ---------------------------------------------------------------------

/-- Rust `EncoderAction` from src/encoder.rs. -/
inductive EncoderAction where
  | none
  | press
  | held
  | click
  | rotate (r : Rotation)
  | rotatePressed (r : Rotation)
  deriving DecidableEq

/-- Rust `TimeEncoderAction` from src/encoder.rs. -/
inductive TimeEncoderAction where
  | none
  | press
  | held (d : Nat)
  | click (d : Nat)
  | rotate (r : Rotation)
  | rotatePressed (r : Rotation)
  deriving DecidableEq

/-- Rust `EncoderError<A, B, K>`. -/
inductive EncoderError (α β κ : Type) where
  | aPin (e : α)
  | bPin (e : β)
  | kPin (e : κ)
  deriving DecidableEq

/-- Rust `impl From<RotaryError<A, B>> for EncoderError<A, B, K>`. -/
def EncoderError.ofRotary {α β κ : Type} : RotaryError α β → EncoderError α β κ
  | .aPin e => .aPin e
  | .bPin e => .bPin e

/-- Rust `impl From<button::Error<K>> for EncoderError<A, B, K>`. -/
def EncoderError.ofButton {α β κ : Type} : ButtonError κ → EncoderError α β κ
  | .kPin e => .kPin e

/-- Rust `Encoder` state.  Its rotary field is declared `Rotary<A, B>`, so
it uses the default divider 4; its button is `Button<K, true>` (inverted). -/
structure Encoder where
  rotary : Rotary
  button : Button
  rotated_on_hold : Bool
  deriving DecidableEq

/-- Rust `Encoder::new`. -/
def Encoder.new : Encoder := ⟨Rotary.new, Button.new, false⟩

/-- Rust `Encoder::handle_press`: clear `rotated_on_hold` and forward the
acknowledgment to the button. -/
def Encoder.handlePress (e : Encoder) : Encoder :=
  ⟨e.rotary, e.button.handlePress, false⟩

/-- The fusion match of Rust `Encoder::update` (src/encoder.rs lines
93-136): from the current `rotated_on_hold` flag, the tick's rotation and
button action, produce the encoder action and the new flag value. -/
def Encoder.fuse (roh : Bool) (rotation : Rotation) (btn : ButtonAction) :
    EncoderAction × Bool :=
  match roh, rotation.is_zero, btn with
  | false, false, .none => (.rotate rotation, false)
  | false, true, .none => (.none, false)
  | true, false, .none => (.none, false)
  | true, true, .none => (.none, false)
  | false, false, .press => (.rotatePressed rotation, true)
  | false, true, .press => (.press, false)
  | true, false, .press => (.rotatePressed rotation, true)
  | true, true, .press => (.none, true)
  | false, false, .held => (.rotatePressed rotation, true)
  | false, true, .held => (.held, false)
  | true, false, .held => (.rotatePressed rotation, true)
  | true, true, .held => (.none, true)
  | false, false, .click => (.click, false)
  | false, true, .click => (.click, false)
  | true, false, .click => (.none, false)
  | true, true, .click => (.none, false)

/-- Rust `Encoder::update`: quadrature step (divider 4), then button step
(inverted button), then fusion.  An error on the A/B pins leaves everything
unchanged; an error on the button pin is returned after the rotary state
has already advanced. -/
def Encoder.update {α β κ : Type} (e : Encoder) (a_low : Except α Bool)
    (b_low : Except β Bool) (k_high : Except κ Bool) :
    Except (EncoderError α β κ) EncoderAction × Encoder :=
  match Rotary.update 4 e.rotary a_low b_low with
  | (.error re, r') => (.error (EncoderError.ofRotary re), { e with rotary := r' })
  | (.ok rotation, r') =>
    match Button.update true e.button k_high with
    | (.error be, b') => (.error (EncoderError.ofButton be), { e with rotary := r', button := b' })
    | (.ok btn, b') =>
      let p := Encoder.fuse e.rotated_on_hold rotation btn
      (.ok p.1, ⟨r', b', p.2⟩)

/-- Rust `TimeEncoder` state: a `TimeRotary` (with the divider parameter), a
`TimeButton<K, T, true>` (inverted) and the `rotated_on_hold` flag. -/
structure TimeEncoder where
  rotary : TimeRotary
  button : TimeButton
  rotated_on_hold : Bool
  deriving DecidableEq

/-- Rust `TimeEncoder::new`. -/
def TimeEncoder.new : TimeEncoder := ⟨TimeRotary.new, TimeButton.new, false⟩

/-- The fusion match of Rust `TimeEncoder::update` (src/encoder.rs lines
176-216). -/
def TimeEncoder.fuse (roh : Bool) (rotation : Rotation) (btn : TimeButtonAction) :
    TimeEncoderAction × Bool :=
  match roh, rotation.is_zero, btn with
  | false, false, .none => (.rotate rotation, false)
  | false, true, .none => (.none, false)
  | true, false, .none => (.none, false)
  | true, true, .none => (.none, false)
  | false, false, .press => (.rotatePressed rotation, true)
  | false, true, .press => (.press, false)
  | true, false, .press => (.rotatePressed rotation, true)
  | true, true, .press => (.none, true)
  | false, false, .held _ => (.rotatePressed rotation, true)
  | false, true, .held t => (.held t, false)
  | true, false, .held _ => (.rotatePressed rotation, true)
  | true, true, .held _ => (.none, true)
  | false, false, .click t => (.click t, false)
  | false, true, .click t => (.click t, false)
  | true, false, .click _ => (.none, false)
  | true, true, .click _ => (.none, false)

/-- Rust `TimeEncoder::update`: time-aware quadrature step, then time-aware
button step, then fusion, with the same error behavior as `Encoder.update`. -/
def TimeEncoder.update {α β κ : Type} (d : Int) (te : TimeEncoder) (a_low : Except α Bool)
    (b_low : Except β Bool) (k_high : Except κ Bool) (now : Nat) :
    Except (EncoderError α β κ) TimeEncoderAction × TimeEncoder :=
  match TimeRotary.update d te.rotary a_low b_low now with
  | (.error re, r') => (.error (EncoderError.ofRotary re), { te with rotary := r' })
  | (.ok rotation, r') =>
    match TimeButton.update true te.button k_high now with
    | (.error be, b') => (.error (EncoderError.ofButton be), { te with rotary := r', button := b' })
    | (.ok btn, b') =>
      let p := TimeEncoder.fuse te.rotated_on_hold rotation btn
      (.ok p.1, ⟨r', b', p.2⟩)

-- ---------------------------------------------------------------------
-- Drivers (pure compositions of the functions above, used to state
-- sequence properties)
-- ---------------------------------------------------------------------

/-- One sample-level `Button::update` tick, optionally preceded by a
`handle_press` acknowledgment call. -/
def buttonTick (ack : Bool) (b : Button) (p : Bool) : ButtonAction × Button :=
  Button.updateCore (if ack then b.handlePress else b) p

/-- Run a sequence of `Rotary::update` calls, threading the state. -/
def Rotary.runList (d : Int) (r : Rotary) :
    List (Except Unit Bool × Except Unit Bool) → Rotary
  | [] => r
  | i :: is => Rotary.runList d (Rotary.update d r i.1 i.2).2 is

-- ---------------------------------------------------------------------
-- Claim C9
-- ---------------------------------------------------------------------

/-- Claim C9, counterexample: the round trip fails at `Direction.cw`, whose
`to_rotation` (+1) comes back as `Ccw` under `Rotation.direction`. -/
theorem direction_round_trip_cex :
    Direction.cw.to_rotation.direction ≠ Direction.cw := by decide

/-- Claim C9 (amended): the round trip fixes `None` but swaps the two
rotational senses: `Cw.to_rotation().direction() = Ccw` and
`Ccw.to_rotation().direction() = Cw` — the sign convention of
`Direction::to_rotation` is opposite to that of `Rotation::direction`. -/
theorem direction_round_trip :
    Direction.none.to_rotation.direction = Direction.none ∧
    Direction.cw.to_rotation.direction = Direction.ccw ∧
    Direction.ccw.to_rotation.direction = Direction.cw := by decide

-- ---------------------------------------------------------------------
-- Claim C10
-- ---------------------------------------------------------------------

/-- Claim C10: `Encoder` and `TimeEncoder` build their button with
`INVERTED = true`, so the key-pin sample is taken as pressed when the pin
is low (`pressed = is_high XOR true = !is_high`), while a standalone
`Button` with the default parameter takes a high level as pressed.
Concretely, a fresh fusion encoder reports `Press` on a low key sample,
and a fresh standalone button reports `Press` on a high sample and
`None` on a low one. -/
theorem button_polarity :
    (∀ (b : Button) (h : Bool),
      Button.update (κ := Unit) true b (.ok h)
          = (.ok (b.updateCore (!h)).1, (b.updateCore (!h)).2) ∧
      Button.update (κ := Unit) false b (.ok h)
          = (.ok (b.updateCore h).1, (b.updateCore h).2)) ∧
    (Encoder.update (α := Unit) (β := Unit) (κ := Unit) Encoder.new
        (.ok false) (.ok false) (.ok false)).1 = .ok .press ∧
    (TimeEncoder.update (α := Unit) (β := Unit) (κ := Unit) 4 TimeEncoder.new
        (.ok false) (.ok false) (.ok false) 0).1 = .ok .press ∧
    (Button.update (κ := Unit) false Button.new (.ok true)).1 = .ok .press ∧
    (Button.update (κ := Unit) false Button.new (.ok false)).1 = .ok .none := by
  refine ⟨fun b h => ⟨?_, ?_⟩, by decide, by decide, by decide, by decide⟩
  · cases h <;> rfl
  · cases h <;> rfl

-- ---------------------------------------------------------------------
-- Claim C3
-- ---------------------------------------------------------------------

/-- Claim C3, counterexample: a fresh `Encoder` fed good A/B samples (low,
high: a forward sub-step) but a failing button-pin read returns the
pin-read error with its rotary sub-state already advanced (window `0b0100`,
accumulator 1), so the encoder's internal state is not unchanged. -/
theorem error_atomicity_cex :
    (Encoder.update (α := Unit) (β := Unit) (κ := Unit)
        ⟨⟨0, 0⟩, ⟨0, false⟩, false⟩ (.ok false) (.ok true) (.error ()))
      = (.error (.kPin ()), ⟨⟨0b0100, 1⟩, ⟨0, false⟩, false⟩) ∧
    (⟨⟨0b0100, 1⟩, ⟨0, false⟩, false⟩ : Encoder) ≠ ⟨⟨0, 0⟩, ⟨0, false⟩, false⟩ := by
  decide

/-- Claim C3 (amended): `Button`, `Rotary`, `TimeButton` and `TimeRotary`
leave their entire state unchanged when `update` returns a pin-read error,
and so do `Encoder` and `TimeEncoder` when the failing read is on the A or
B pin; but when the quadrature read succeeds and the button-pin read fails,
`Encoder`/`TimeEncoder` return the error with the rotary sub-state already
advanced by that tick while the button state and `rotated_on_hold` are
unchanged. -/
theorem error_atomicity (inv ab : Bool) (b : Button) (r : Rotary) (d : Int)
    (tb : TimeButton) (tr : TimeRotary) (e : Encoder) (te : TimeEncoder)
    (aL bL : Except Unit Bool) (kH : Except Unit Bool) (now : Nat) :
    Button.update (κ := Unit) inv b (.error ()) = (.error (.kPin ()), b) ∧
    Rotary.update (α := Unit) (β := Unit) d r (.error ()) bL = (.error (.aPin ()), r) ∧
    Rotary.update (α := Unit) (β := Unit) d r (.ok ab) (.error ()) = (.error (.bPin ()), r) ∧
    TimeButton.update (κ := Unit) inv tb (.error ()) now = (.error (.kPin ()), tb) ∧
    TimeRotary.update (α := Unit) (β := Unit) d tr (.error ()) bL now
        = (.error (.aPin ()), tr) ∧
    TimeRotary.update (α := Unit) (β := Unit) d tr (.ok ab) (.error ()) now
        = (.error (.bPin ()), tr) ∧
    (Encoder.update (α := Unit) e (.error ()) bL kH).2 = e ∧
    (Encoder.update (α := Unit) (β := Unit) e (.ok ab) (.error ()) kH).2 = e ∧
    ((Encoder.update e aL bL (.error ())).2.button = e.button ∧
      (Encoder.update e aL bL (.error ())).2.rotated_on_hold = e.rotated_on_hold ∧
      (Encoder.update e aL bL (.error ())).2.rotary = (Rotary.update 4 e.rotary aL bL).2) ∧
    (TimeEncoder.update (α := Unit) d te (.error ()) bL kH now).2 = te ∧
    (TimeEncoder.update (α := Unit) (β := Unit) d te (.ok ab) (.error ()) kH now).2 = te ∧
    ((TimeEncoder.update d te aL bL (.error ()) now).2.button = te.button ∧
      (TimeEncoder.update d te aL bL (.error ()) now).2.rotated_on_hold = te.rotated_on_hold ∧
      (TimeEncoder.update d te aL bL (.error ()) now).2.rotary
        = (TimeRotary.update d te.rotary aL bL now).2) := by
  refine ⟨rfl, rfl, rfl, rfl, rfl, rfl, rfl, rfl, ?_, rfl, rfl, ?_⟩
  · rcases hP : Rotary.update 4 e.rotary aL bL with ⟨res, r'⟩
    cases res <;> simp [Encoder.update, hP, Button.update]
  · rcases hP : TimeRotary.update d te.rotary aL bL now with ⟨res, r'⟩
    cases res <;> simp [TimeEncoder.update, hP, TimeButton.update, Button.update]

-- ---------------------------------------------------------------------
-- Claim C4
-- ---------------------------------------------------------------------

/-- Claim C4, counterexample: from a fresh button, a pressed sample yields
`Press`; acknowledging through `handle_press` (legal, the state is `0b10`)
and feeding a second consecutive pressed sample yields `None`, not `Held`. -/
theorem button_two_pressed_cex :
    (Button.update (κ := Unit) false Button.new (.ok true)).1 = .ok .press ∧
    (Button.update (κ := Unit) false
        ((Button.update (κ := Unit) false Button.new (.ok true)).2.handlePress)
        (.ok true)).1 = .ok .none ∧
    (Button.update (κ := Unit) false
        ((Button.update (κ := Unit) false Button.new (.ok true)).2.handlePress)
        (.ok true)).1 ≠ .ok .held := by decide

/-- Claim C4 (amended): over any interleaving of `handle_press` calls, the
second of two consecutive pressed samples yields `Held` unless the press
was acknowledged, in which case it yields `None` (and `Held` whenever the
acknowledgment flag is clear at that tick); and `Press` is never returned
on two consecutive ticks. -/
theorem button_two_pressed (b : Button) (c0 c1 p1 p2 : Bool) (hs : b.state < 4) :
    ((buttonTick c1 (buttonTick c0 b true).2 true).1 = .held ∨
      (buttonTick c1 (buttonTick c0 b true).2 true).1 = .none) ∧
    ((if c1 then (buttonTick c0 b true).2.handlePress else (buttonTick c0 b true).2).handle_press
        = false → (buttonTick c1 (buttonTick c0 b true).2 true).1 = .held) ∧
    ((if c1 then (buttonTick c0 b true).2.handlePress else (buttonTick c0 b true).2).handle_press
        = true → (buttonTick c1 (buttonTick c0 b true).2 true).1 = .none) ∧
    ((buttonTick c0 b p1).1 = .press → (buttonTick c1 (buttonTick c0 b p1).2 p2).1 ≠ .press) := by
  obtain ⟨s, hp⟩ := b
  have hs' : s < 4 := hs
  interval_cases s <;> revert hp c0 c1 p1 p2 <;> decide

/-- Witness for `button_two_pressed` at a fresh button with no
acknowledgment calls: the second pressed sample yields `Held`. -/
theorem button_two_pressed_witness :
    (buttonTick false (buttonTick false Button.new true).2 true).1 = ButtonAction.held := by
  have h := button_two_pressed Button.new false false true true (by decide)
  exact h.2.1 (by decide)

-- ---------------------------------------------------------------------
-- Claim C6
-- ---------------------------------------------------------------------

/-- Claim C6: with the acknowledgment flag clear, `Button::update` computes
the new 2-bit state `s = (s >> 1) | (pressed ? 0b10 : 0b00)` and classifies
it as 00 ↦ None, 01 ↦ Click, 10 ↦ Press, 11 ↦ Held; in particular the
sample sequence [pressed, released] from the zero state yields
[Press, Click]. -/
theorem button_classification (b : Button) (p : Bool)
    (hhp : b.handle_press = false) (hs : b.state < 4) :
    ((Button.update (κ := Unit) false b (.ok p)).2.state
        = ((b.state >>> 1) ||| (if p then 0b10 else 0b00)) ∧
      (Button.update (κ := Unit) false b (.ok p)).1
        = .ok (if (b.state >>> 1) ||| (if p then 0b10 else 0b00) = 0b00 then ButtonAction.none
          else if (b.state >>> 1) ||| (if p then 0b10 else 0b00) = 0b01 then ButtonAction.click
          else if (b.state >>> 1) ||| (if p then 0b10 else 0b00) = 0b10 then ButtonAction.press
          else ButtonAction.held)) ∧
    ((Button.update (κ := Unit) false Button.new (.ok true)).1 = .ok .press ∧
      (Button.update (κ := Unit) false
        (Button.update (κ := Unit) false Button.new (.ok true)).2 (.ok false)).1 = .ok .click) := by
  obtain ⟨s, hp⟩ := b
  have hs' : s < 4 := hs
  have hhp' : hp = false := hhp
  subst hhp'
  interval_cases s <;> revert p <;> decide

/-- Witness for `button_classification` at the zero state with a pressed
sample: the state becomes `0b10` and the action is `Press`. -/
theorem button_classification_witness :
    (Button.update (κ := Unit) false Button.new (.ok true)).2.state = 0b10 ∧
    (Button.update (κ := Unit) false Button.new (.ok true)).1 = .ok .press := by
  have h := button_classification Button.new true (by decide) (by decide)
  exact ⟨by simpa using h.1.1, by simpa using h.1.2⟩

-- ---------------------------------------------------------------------
-- Claim C7
-- ---------------------------------------------------------------------

/-- Claim C7: `handle_press` sets the acknowledgment flag exactly in states
`0b10`/`0b11`; once the flag is set, an update reaching state `0b11`
returns `None` (instead of `Held`) keeping the flag, an update reaching
state `0b01` returns `None` (instead of `Click`) and clears the flag, and
updates reaching `0b00`/`0b10` are classified unchanged (`None`/`Press`)
with the flag still set. -/
theorem button_handle_press_ack (b : Button) (p : Bool) (hs : b.state < 4) :
    (b.handlePress
        = ⟨b.state, if b.state = 0b10 ∨ b.state = 0b11 then true else b.handle_press⟩) ∧
    (b.handle_press = true →
      ((Button.update (κ := Unit) false b (.ok p)).2.state = 0b11 →
        (Button.update (κ := Unit) false b (.ok p)).1 = .ok .none ∧
        (Button.update (κ := Unit) false b (.ok p)).2.handle_press = true) ∧
      ((Button.update (κ := Unit) false b (.ok p)).2.state = 0b01 →
        (Button.update (κ := Unit) false b (.ok p)).1 = .ok .none ∧
        (Button.update (κ := Unit) false b (.ok p)).2.handle_press = false) ∧
      ((Button.update (κ := Unit) false b (.ok p)).2.state = 0b00 →
        (Button.update (κ := Unit) false b (.ok p)).1 = .ok .none ∧
        (Button.update (κ := Unit) false b (.ok p)).2.handle_press = true) ∧
      ((Button.update (κ := Unit) false b (.ok p)).2.state = 0b10 →
        (Button.update (κ := Unit) false b (.ok p)).1 = .ok .press ∧
        (Button.update (κ := Unit) false b (.ok p)).2.handle_press = true)) := by
  obtain ⟨s, hp⟩ := b
  have hs' : s < 4 := hs
  interval_cases s <;> revert hp p <;> decide

/-- Witness for `button_handle_press_ack`: an acknowledged button in held
state `0b11` fed another pressed sample reports `None` and keeps the flag. -/
theorem button_handle_press_ack_witness :
    (Button.update (κ := Unit) false (⟨0b11, true⟩ : Button) (.ok true)).1 = .ok .none ∧
    (Button.update (κ := Unit) false (⟨0b11, true⟩ : Button) (.ok true)).2.handle_press = true := by
  have h := button_handle_press_ack ⟨0b11, true⟩ true (by decide)
  exact (h.2 rfl).1 (by decide)

-- ---------------------------------------------------------------------
-- Claim C5
-- ---------------------------------------------------------------------

/-- Helper: one `Rotary::update` call preserves `|switches| < d`. -/
theorem Rotary.update_switches_lt {d : Int} {r : Rotary} (aL bL : Except Unit Bool)
    (hd : 0 < d) (hr : (r.switches.natAbs : Int) < d) :
    (((Rotary.update d r aL bL).2).switches.natAbs : Int) < d := by
  cases aL with
  | error e => simpa [Rotary.update] using hr
  | ok a =>
    cases bL with
    | error e => simpa [Rotary.update] using hr
    | ok b =>
      show (((Rotary.updateCore d r a b).2).switches.natAbs : Int) < d
      unfold Rotary.updateCore overflow_switches
      dsimp only
      split_ifs <;> simp_all

/-- Helper: the invariant `|switches| < d` is preserved along any run. -/
theorem Rotary.runList_switches_lt (d : Int) (hd : 0 < d) :
    ∀ (inputs : List (Except Unit Bool × Except Unit Bool)) (r : Rotary),
      (r.switches.natAbs : Int) < d →
      ((Rotary.runList d r inputs).switches.natAbs : Int) < d := by
  intro inputs
  induction inputs with
  | nil => intro r h; simpa [Rotary.runList] using h
  | cons i is ih =>
    intro r h
    exact ih _ (Rotary.update_switches_lt i.1 i.2 hd h)

/-- Claim C5: for every sequence of `Rotary::update` calls with divider
`d > 0`, starting from the fresh state, the accumulator satisfies
`|switches| < d` after every update returns (it is reset in the call that
emits a unit step and never left at or beyond the threshold). -/
theorem rotary_switches_invariant (d : Int) (hd : 0 < d)
    (inputs : List (Except Unit Bool × Except Unit Bool)) :
    ((Rotary.runList d Rotary.new inputs).switches.natAbs : Int) < d :=
  Rotary.runList_switches_lt d hd inputs Rotary.new (by simpa using hd)

/-- Witness for `rotary_switches_invariant`: divider 4 and a short
forward sample sequence. -/
theorem rotary_switches_invariant_witness :
    (0 : Int) < 4 ∧
    ((Rotary.runList 4 Rotary.new
        [(.ok false, .ok true), (.ok true, .ok true)]).switches.natAbs : Int) < 4 :=
  ⟨by decide, rotary_switches_invariant 4 (by decide) [(.ok false, .ok true), (.ok true, .ok true)]⟩

-- ---------------------------------------------------------------------
-- Fusion-match helper lemmas
-- ---------------------------------------------------------------------

/-- On a nonzero rotation with button action None, the fusion match returns
`Rotate` when the flag was clear and `None` when it was set, and the flag
is clear afterwards. -/
theorem Encoder.fuse_none_nonzero (roh : Bool) (rot : Rotation) (hz : rot.is_zero = false) :
    Encoder.fuse roh rot .none = ((if roh then EncoderAction.none else .rotate rot), false) := by
  cases roh <;> simp [Encoder.fuse, hz]

/-- Time-fusing analogue of `Encoder.fuse_none_nonzero`. -/
theorem TimeEncoder.time_fuse_none_nonzero (roh : Bool) (rot : Rotation) (hz : rot.is_zero = false) :
    TimeEncoder.fuse roh rot .none
      = ((if roh then TimeEncoderAction.none else .rotate rot), false) := by
  cases roh <;> simp [TimeEncoder.fuse, hz]

/-- On a Click button action, the fusion match suppresses to `None` when the
flag was set, reports `Click` when it was clear, and clears the flag in
either case. -/
theorem Encoder.fuse_click (roh : Bool) (rot : Rotation) :
    Encoder.fuse roh rot .click = ((if roh then EncoderAction.none else .click), false) := by
  cases roh <;> cases hz : rot.is_zero <;> simp [Encoder.fuse, hz]

/-- Time-fusing analogue of `Encoder.fuse_click`. -/
theorem TimeEncoder.time_fuse_click (roh : Bool) (rot : Rotation) (t : Nat) :
    TimeEncoder.fuse roh rot (.click t)
      = ((if roh then TimeEncoderAction.none else .click t), false) := by
  cases roh <;> cases hz : rot.is_zero <;> simp [TimeEncoder.fuse, hz]

-- ---------------------------------------------------------------------
-- Claim C1
-- ---------------------------------------------------------------------

/-- Claim C1, counterexample: with `rotated_on_hold` set, a tick whose
button action is `None` (released key pin on the inverted button, state
`0b00`) and whose rotation is nonzero (accumulator 3 hitting the home
window `0b0000` emits a +1 step) returns `None`, not `Rotate(rotation)`. -/
theorem encoder_idle_rotate_cex :
    (Rotary.update (α := Unit) (β := Unit) 4 ⟨0, 3⟩ (.ok false) (.ok false)).1 = .ok ⟨1⟩ ∧
    (Button.update (κ := Unit) true (⟨0, false⟩ : Button) (.ok true)).1 = .ok .none ∧
    (Encoder.update (α := Unit) (β := Unit) (κ := Unit)
        ⟨⟨0, 3⟩, ⟨0, false⟩, true⟩ (.ok false) (.ok false) (.ok true)).1 = .ok .none ∧
    (Encoder.update (α := Unit) (β := Unit) (κ := Unit)
        ⟨⟨0, 3⟩, ⟨0, false⟩, true⟩ (.ok false) (.ok false) (.ok true)).1
      ≠ .ok (.rotate ⟨1⟩) := by decide

/-- Claim C1 (amended): on a tick whose button action is `None` and whose
rotation is nonzero, `Encoder::update` (resp. `TimeEncoder::update`)
returns `Rotate(rotation)` when `rotated_on_hold` was clear, leaving it
clear, and returns `None` while clearing the flag when it was set; in both
cases `rotated_on_hold` is false afterwards. -/
theorem encoder_idle_rotate
    (e : Encoder) (aL bL kH : Except Unit Bool) (rot : Rotation)
    (te : TimeEncoder) (d : Int) (aL2 bL2 kH2 : Except Unit Bool) (now : Nat) (rot2 : Rotation)
    (hr : (Rotary.update 4 e.rotary aL bL).1 = .ok rot)
    (hz : rot.is_zero = false)
    (hb : (Button.update true e.button kH).1 = .ok .none)
    (hr2 : (TimeRotary.update d te.rotary aL2 bL2 now).1 = .ok rot2)
    (hz2 : rot2.is_zero = false)
    (hb2 : (TimeButton.update true te.button kH2 now).1 = .ok .none) :
    ((Encoder.update e aL bL kH).1
        = .ok (if e.rotated_on_hold then EncoderAction.none else .rotate rot) ∧
      (Encoder.update e aL bL kH).2.rotated_on_hold = false) ∧
    ((TimeEncoder.update d te aL2 bL2 kH2 now).1
        = .ok (if te.rotated_on_hold then TimeEncoderAction.none else .rotate rot2) ∧
      (TimeEncoder.update d te aL2 bL2 kH2 now).2.rotated_on_hold = false) := by
  constructor
  · rcases hP : Rotary.update 4 e.rotary aL bL with ⟨res, r'⟩
    rw [hP] at hr
    simp only at hr
    subst hr
    rcases hQ : Button.update true e.button kH with ⟨bres, b'⟩
    rw [hQ] at hb
    simp only at hb
    subst hb
    simp [Encoder.update, hP, hQ, Encoder.fuse_none_nonzero _ _ hz]
  · rcases hP : TimeRotary.update d te.rotary aL2 bL2 now with ⟨res, r'⟩
    rw [hP] at hr2
    simp only at hr2
    subst hr2
    rcases hQ : TimeButton.update true te.button kH2 now with ⟨bres, b'⟩
    rw [hQ] at hb2
    simp only at hb2
    subst hb2
    simp [TimeEncoder.update, hP, hQ, TimeEncoder.time_fuse_none_nonzero _ _ hz2]

/-- Witness for `encoder_idle_rotate`: an `Encoder` with the flag set gets
`None` (flag cleared); a fresh-flag `TimeEncoder` with divider 1 gets
`Rotate`. -/
theorem encoder_idle_rotate_witness :
    (Encoder.update (α := Unit) (β := Unit) (κ := Unit)
        ⟨⟨0, 3⟩, ⟨0, false⟩, true⟩ (.ok false) (.ok false) (.ok true)).1 = .ok .none ∧
    (TimeEncoder.update (α := Unit) (β := Unit) (κ := Unit) 1
        ⟨⟨⟨0, 0⟩, Option.none, 1⟩, ⟨⟨0, false⟩, 0⟩, false⟩
        (.ok false) (.ok true) (.ok true) 0).1 = .ok (.rotate ⟨1⟩) := by
  have h := encoder_idle_rotate
    ⟨⟨0, 3⟩, ⟨0, false⟩, true⟩ (.ok false) (.ok false) (.ok true) ⟨1⟩
    ⟨⟨⟨0, 0⟩, Option.none, 1⟩, ⟨⟨0, false⟩, 0⟩, false⟩ 1 (.ok false) (.ok true) (.ok true) 0 ⟨1⟩
    (by decide) (by decide) (by decide) (by decide) (by decide) (by decide)
  exact ⟨by simpa using h.1.1, by simpa using h.2.1⟩

-- ---------------------------------------------------------------------
-- Claim C2
-- ---------------------------------------------------------------------

/-- Claim C2, counterexample: the button-only `Encoder` with
`rotated_on_hold` set and a tick whose button action is `Click` reports
`None`, not `Click` — the no-time variant suppresses exactly like the
time-fusing one. -/
theorem encoder_click_cex :
    (Button.update (κ := Unit) true (⟨0b10, false⟩ : Button) (.ok true)).1 = .ok .click ∧
    (Encoder.update (α := Unit) (β := Unit) (κ := Unit)
        ⟨⟨0, 0⟩, ⟨0b10, false⟩, true⟩ (.ok false) (.ok false) (.ok true)).1 = .ok .none ∧
    (Encoder.update (α := Unit) (β := Unit) (κ := Unit)
        ⟨⟨0, 0⟩, ⟨0b10, false⟩, true⟩ (.ok false) (.ok false) (.ok true)).1
      ≠ .ok .click := by decide

/-- Claim C2 (amended): with `rotated_on_hold` set, a tick whose button
action is `Click` makes `Encoder::update` report `None` and clear the flag
— the same suppression policy as `TimeEncoder::update`; neither variant
reports `Click` in that situation. -/
theorem encoder_click_suppressed
    (e : Encoder) (aL bL kH : Except Unit Bool)
    (te : TimeEncoder) (d : Int) (aL2 bL2 kH2 : Except Unit Bool) (now t : Nat)
    (hroh : e.rotated_on_hold = true)
    (hok : ∃ rot, (Rotary.update 4 e.rotary aL bL).1 = .ok rot)
    (hb : (Button.update true e.button kH).1 = .ok .click)
    (hroh2 : te.rotated_on_hold = true)
    (hok2 : ∃ rot, (TimeRotary.update d te.rotary aL2 bL2 now).1 = .ok rot)
    (hb2 : (TimeButton.update true te.button kH2 now).1 = .ok (.click t)) :
    ((Encoder.update e aL bL kH).1 = .ok EncoderAction.none ∧
      (Encoder.update e aL bL kH).2.rotated_on_hold = false) ∧
    ((TimeEncoder.update d te aL2 bL2 kH2 now).1 = .ok TimeEncoderAction.none ∧
      (TimeEncoder.update d te aL2 bL2 kH2 now).2.rotated_on_hold = false) := by
  constructor
  · obtain ⟨rot, hr⟩ := hok
    rcases hP : Rotary.update 4 e.rotary aL bL with ⟨res, r'⟩
    rw [hP] at hr
    simp only at hr
    subst hr
    rcases hQ : Button.update true e.button kH with ⟨bres, b'⟩
    rw [hQ] at hb
    simp only at hb
    subst hb
    simp [Encoder.update, hP, hQ, Encoder.fuse_click, hroh]
  · obtain ⟨rot, hr⟩ := hok2
    rcases hP : TimeRotary.update d te.rotary aL2 bL2 now with ⟨res, r'⟩
    rw [hP] at hr
    simp only at hr
    subst hr
    rcases hQ : TimeButton.update true te.button kH2 now with ⟨bres, b'⟩
    rw [hQ] at hb2
    simp only at hb2
    subst hb2
    simp [TimeEncoder.update, hP, hQ, TimeEncoder.time_fuse_click, hroh2]

/-- Witness for `encoder_click_suppressed`: concrete encoders with the flag
set and a click tick (the time variant clicks 5 ms after its press
anchor). -/
theorem encoder_click_suppressed_witness :
    (Encoder.update (α := Unit) (β := Unit) (κ := Unit)
        ⟨⟨0, 0⟩, ⟨0b10, false⟩, true⟩ (.ok false) (.ok false) (.ok true)).1 = .ok .none ∧
    (TimeEncoder.update (α := Unit) (β := Unit) (κ := Unit) 4
        ⟨⟨⟨0, 0⟩, Option.none, 1⟩, ⟨⟨0b10, false⟩, 0⟩, true⟩
        (.ok false) (.ok false) (.ok true) 5).1 = .ok .none := by
  have h := encoder_click_suppressed
    ⟨⟨0, 0⟩, ⟨0b10, false⟩, true⟩ (.ok false) (.ok false) (.ok true)
    ⟨⟨⟨0, 0⟩, Option.none, 1⟩, ⟨⟨0b10, false⟩, 0⟩, true⟩ 4 (.ok false) (.ok false) (.ok true) 5 5
    rfl ⟨⟨0⟩, by decide⟩ (by decide) rfl ⟨⟨0⟩, by decide⟩ (by decide)
  exact ⟨h.1.1, h.2.1⟩

-- ---------------------------------------------------------------------
-- Claim C8
-- ---------------------------------------------------------------------

/-- Claim C8: for `TimeRotary::update` on a tick whose quadrature step is
nonzero, the stored previous instant is replaced by `now` in every branch;
the very first nonzero step (no stored instant) passes through unscaled;
with a stored instant `last` and `dt = now - last` milliseconds, the result
is the step times the acceleration factor when `dt ≤ LIMITED_ROTATION_MS`,
the unscaled step when `dt ≥ SINGLE_ROTATION_MS`, and otherwise the step
times `accel − accel·(dt − LIMITED_ROTATION_MS) /
(SINGLE_ROTATION_MS − LIMITED_ROTATION_MS)` in integer arithmetic.
Zero steps leave the stored instant unchanged. -/
theorem time_rotary_acceleration (d : Int) (tr : TimeRotary) (aL bL : Except Unit Bool)
    (now : Nat) (rot : Rotation)
    (hr : (Rotary.update d tr.rotary aL bL).1 = .ok rot) :
    (rot.angle ≠ 0 →
      ((TimeRotary.update d tr aL bL now).2.last_rot_at = some now ∧
        (tr.last_rot_at = Option.none →
          (TimeRotary.update d tr aL bL now).1 = .ok rot) ∧
        (∀ last, tr.last_rot_at = some last →
          ((now - last ≤ LIMITED_ROTATION_MS →
            (TimeRotary.update d tr aL bL now).1
              = .ok ⟨rot.angle * (tr.acceleration : Int)⟩) ∧
          (SINGLE_ROTATION_MS ≤ now - last →
            (TimeRotary.update d tr aL bL now).1 = .ok rot) ∧
          (LIMITED_ROTATION_MS < now - last → now - last < SINGLE_ROTATION_MS →
            (TimeRotary.update d tr aL bL now).1
              = .ok ⟨rot.angle * ((tr.acceleration -
                  tr.acceleration * ((now - last) - LIMITED_ROTATION_MS)
                    / (SINGLE_ROTATION_MS - LIMITED_ROTATION_MS) : Nat) : Int)⟩))))) ∧
    (rot.angle = 0 →
      (TimeRotary.update d tr aL bL now).2.last_rot_at = tr.last_rot_at) := by
  rcases hP : Rotary.update d tr.rotary aL bL with ⟨res, r'⟩
  rw [hP] at hr
  simp only at hr
  subst hr
  constructor
  · intro hnz
    refine ⟨?_, ?_, ?_⟩
    · cases hL : tr.last_rot_at with
      | none => simp [TimeRotary.update, hP, hL, hnz]
      | some last =>
        simp only [TimeRotary.update, hP, hL]
        rw [if_neg hnz]
        split_ifs <;> rfl
    · intro hnone
      simp [TimeRotary.update, hP, hnone, hnz]
    · intro last hlast
      simp only [TimeRotary.update, hP, hlast]
      rw [if_neg hnz]
      refine ⟨?_, ?_, ?_⟩
      · intro hle
        rw [if_pos hle]
      · intro hge
        have h20 : ¬ (now - last ≤ LIMITED_ROTATION_MS) := by
          simp only [LIMITED_ROTATION_MS, SINGLE_ROTATION_MS] at hge ⊢; omega
        rw [if_neg h20, if_pos hge]
      · intro h1 h2
        have h20 : ¬ (now - last ≤ LIMITED_ROTATION_MS) := by
          simp only [LIMITED_ROTATION_MS] at h1 ⊢; omega
        have h100 : ¬ (SINGLE_ROTATION_MS ≤ now - last) := by
          simp only [SINGLE_ROTATION_MS] at h2 ⊢; omega
        rw [if_neg h20, if_neg h100]
  · intro hzero
    simp [TimeRotary.update, hP, hzero]

/-- Witness for `time_rotary_acceleration`: divider 1, acceleration 7,
previous step at 0 ms and this one at 10 ms (so `dt = 10 ≤ 20`): the +1
step is scaled to 7; the stored instant becomes 10. -/
theorem time_rotary_acceleration_witness :
    (TimeRotary.update (α := Unit) (β := Unit) 1 ⟨⟨0, 0⟩, some 0, 7⟩
        (.ok false) (.ok true) 10).1 = .ok ⟨7⟩ ∧
    (TimeRotary.update (α := Unit) (β := Unit) 1 ⟨⟨0, 0⟩, some 0, 7⟩
        (.ok false) (.ok true) 10).2.last_rot_at = some 10 := by
  have h := time_rotary_acceleration 1 ⟨⟨0, 0⟩, some 0, 7⟩ (.ok false) (.ok true) 10 ⟨1⟩
    (by decide)
  have h1 := h.1 (by decide)
  exact ⟨by simpa using (h1.2.2 0 rfl).1 (by decide), h1.1⟩
